import Mathlib

/-!
Verification development for the Nuitka-performance-suite benchmarking
harness.  The Python source is shallowly embedded: sample series become
`List ℚ` (exact arithmetic in place of Python's float results of
`statistics.mean`), fallible code returns `Option`/`Except`, Python dicts
become insertion-ordered association lists with last-write-wins update,
and the filesystem is passed explicitly.
-/

namespace benchengine

/-- Python `str.lower()` for the ASCII strings this code compares. -/
def pyLower (s : String) : String := ⟨s.data.map Char.toLower⟩

/-- Python `min(xs)` over a list: `None` (an exception) on the empty list,
otherwise the least element, computed as a left fold as CPython does. -/
def pymin : List ℚ → Option ℚ
  | [] => none
  | x :: xs => some (xs.foldl min x)

/-- Python `statistics.mean(xs)`: raises (here `none`) on an empty sequence,
otherwise the exact arithmetic mean. -/
def pymean (s : List ℚ) : Option ℚ :=
  if s.isEmpty then none else some (s.sum / s.length)

/-- Lines 315-319 of `benchengine.py`, for one series `s`:
`is_skewed = min(s) == s[0]` and then `mean(s[is_skewed:])`
(a Python `bool` slices as `0`/`1`). -/
def seriesMean (s : List ℚ) : Option ℚ := do
  let m ← pymin s
  pymean (s.drop (if m = s.headI then 1 else 0))

/-- The `Stats` dataclass of `benchengine.py` (warm-up and benchmark
sample series for one execution mode). -/
structure Stats where
  name : String
  warmup : List ℚ
  benchmark : List ℚ
deriving DecidableEq

/-- The `Benchmark` dataclass of `benchengine.py`.  The unused `file_json`
field and the `factory` back-reference (only dereferenced by the
visualizer's rendering loop) are not modelled. -/
structure Benchmark where
  name : String
  nuitka_version : Option String := none
  nuitka_stats : Option Stats := none
  cpython_stats : Option Stats := none
  python_version : Option (Nat × Nat) := none
deriving DecidableEq

/-- `Benchmark.calculate_stats` (lines 303-321): validates the `which`
string, requires both stats to be present (`ValueError` otherwise), then
returns the minimum of the two skew-trimmed series means of the selected
mode. -/
def Benchmark.calculate_stats (b : Benchmark) (which : String) : Option ℚ :=
  if ¬ (pyLower which = "nuitka" ∨ pyLower which = "cpython") then none
  else
    match b.nuitka_stats, b.cpython_stats with
    | some ns, some cs => do
        let stats := if pyLower which = "nuitka" then ns else cs
        let warmup ← seriesMean stats.warmup
        let benchmark ← seriesMean stats.benchmark
        pure (min warmup benchmark)
    | _, _ => none

/-- The numeric/sign content of the `rich` renderable built by
`Benchmark.format_stats`: a green `+x%`, a red `-x%`, or a yellow `x%`. -/
inductive StatsDisplay
  | plus (x : ℚ)
  | minus (x : ℚ)
  | zero (x : ℚ)
deriving DecidableEq

/-- `Benchmark.format_stats` (lines 323-335).  Every branch divides by the
CPython figure, so a zero CPython mean raises `ZeroDivisionError` in all
three branches; that single failure is hoisted into the `none` guard. -/
def Benchmark.format_stats (b : Benchmark) : Option StatsDisplay := do
  let nuitka_stats ← b.calculate_stats "nuitka"
  let cpython_stats ← b.calculate_stats "cpython"
  if cpython_stats = 0 then none
  else if nuitka_stats < cpython_stats then
    pure (.plus ((cpython_stats - nuitka_stats) / cpython_stats * 100))
  else if cpython_stats < nuitka_stats then
    pure (.minus ((nuitka_stats - cpython_stats) / cpython_stats * 100))
  else
    pure (.zero ((nuitka_stats - cpython_stats) / cpython_stats * 100))

/-- The `BenchmarkV2` dataclass: one mode's warm-up/benchmark series. -/
structure BenchmarkV2 where
  warmup : List ℚ := []
  benchmark : List ℚ := []
deriving DecidableEq

/-- The `BenchmarkFile` dataclass: standard and factory channels. -/
structure BenchmarkFile where
  standard : BenchmarkV2 := {}
  factory : BenchmarkV2 := {}
deriving DecidableEq

/-- The `BenchmarkHolder` dataclass (field order as declared, which fixes
the meaning of positional constructor arguments). -/
structure BenchmarkHolder where
  benchmark_name : String
  python_version : String
  CPython_benchmark : BenchmarkFile
  Nuitka_benchmark : BenchmarkFile
deriving DecidableEq

/-- JSON subtree `{"Warmup": [...], "Benchmark": [...]}`. -/
structure ModeDict where
  Warmup : List ℚ
  Benchmark : List ℚ
deriving DecidableEq

/-- JSON subtree `{"Nuitka": {...}, "CPython": {...}}`. -/
structure ChannelDict where
  Nuitka : ModeDict
  CPython : ModeDict
deriving DecidableEq

/-- JSON subtree `{"Standard": {...}, "Factory": {...}}` stored under a
python-version key. -/
structure VersionDict where
  Standard : ChannelDict
  Factory : ChannelDict
deriving DecidableEq

/-- `BenchmarkHolder.to_dict` (lines 73-97): the one-key dictionary
`{python_version: {...}}` serialising the four series. -/
def BenchmarkHolder.to_dict (h : BenchmarkHolder) : String × VersionDict :=
  (h.python_version,
    ⟨⟨⟨h.Nuitka_benchmark.standard.warmup, h.Nuitka_benchmark.standard.benchmark⟩,
      ⟨h.CPython_benchmark.standard.warmup, h.CPython_benchmark.standard.benchmark⟩⟩,
     ⟨⟨h.Nuitka_benchmark.factory.warmup, h.Nuitka_benchmark.factory.benchmark⟩,
      ⟨h.CPython_benchmark.factory.warmup, h.CPython_benchmark.factory.benchmark⟩⟩⟩)

/-- `BenchmarkHolder.from_dict` (lines 99-135).  The Python `cls(...)` call
passes the `BenchmarkFile` built from the `"Nuitka"` entries as the third
positional argument — which is the `CPython_benchmark` field — and the one
built from the `"CPython"` entries as the fourth (`Nuitka_benchmark`).
That argument order is reproduced here exactly as the source has it. -/
def BenchmarkHolder.from_dict (d : VersionDict) (benchmark_name python_version : String) :
    BenchmarkHolder :=
  let standard_nuitka := d.Standard.Nuitka
  let standard_cpython := d.Standard.CPython
  let factory_nuitka := d.Factory.Nuitka
  let factory_cpython := d.Factory.CPython
  { benchmark_name := benchmark_name
    python_version := python_version
    CPython_benchmark := ⟨⟨standard_nuitka.Warmup, standard_nuitka.Benchmark⟩,
                          ⟨factory_nuitka.Warmup, factory_nuitka.Benchmark⟩⟩
    Nuitka_benchmark := ⟨⟨standard_cpython.Warmup, standard_cpython.Benchmark⟩,
                         ⟨factory_cpython.Warmup, factory_cpython.Benchmark⟩⟩ }

/-- Python dict assignment `d[k] = v` on an insertion-ordered association
list: overwrite in place if the key is present, otherwise append. -/
def dictInsert {α : Type} : List (String × α) → String → α → List (String × α)
  | [], k, v => [(k, v)]
  | p :: ps, k, v => if p.1 = k then (k, v) :: ps else p :: dictInsert ps k v

/-- The `Benchmarks` dataclass: a named dict from python-version strings to
`BenchmarkHolder`s. -/
structure Benchmarks where
  benchmarks_name : String
  benchmarks : List (String × BenchmarkHolder) := []
deriving DecidableEq

/-- `Benchmarks.add_benchmark` (lines 143-144):
`self.benchmarks[benchmark.python_version] = benchmark`. -/
def Benchmarks.add_benchmark (bs : Benchmarks) (benchmark : BenchmarkHolder) : Benchmarks :=
  { bs with benchmarks := dictInsert bs.benchmarks benchmark.python_version benchmark }

/-- `Benchmarks.from_json_file` (lines 146-157) applied to already-parsed
file contents: an early return on falsy (empty) contents, otherwise one
`add_benchmark` per stored python version. -/
def Benchmarks.from_json (bs : Benchmarks) (contents : List (String × VersionDict)) :
    Benchmarks :=
  if contents.isEmpty then bs
  else contents.foldl
    (fun acc pv =>
      acc.add_benchmark (BenchmarkHolder.from_dict pv.2 acc.benchmarks_name pv.1)) bs

/-- `Benchmarks.to_json_file` (lines 207-212): starts from an empty dict and
merges each holder's one-key `to_dict` into it. -/
def Benchmarks.to_json (bs : Benchmarks) : List (String × VersionDict) :=
  bs.benchmarks.foldl
    (fun contents kv => dictInsert contents kv.2.to_dict.1 kv.2.to_dict.2) []

/-- A result file on disk: missing, zero-byte, or non-empty with parsed
JSON content. -/
inductive DiskFile (α : Type)
  | absent
  | empty
  | withContent (content : α)
deriving DecidableEq

/-- The Python exception classes these paths can raise. -/
inductive PyErr
  | fileNotFound
  | valueError
deriving DecidableEq

/-- `Benchmark.parse_file_name` (lines 250-254): split the stem on `-` into
exactly three parts, then read `major.minor` out of the version part;
failures of the unpacking, indexing or `int()` conversion become `none`. -/
def parse_file_name (file_name : String) : Option (String × String × (Nat × Nat)) :=
  match file_name.splitOn "-" with
  | [platform, version, _] =>
    match version.splitOn "." with
    | major :: minor :: _ => do
        let a ← major.toNat?
        let b ← minor.toNat?
        pure (platform, version, (a, b))
    | _ => none
  | _ => none

/-- JSON subtree `{"warmup": [...], "benchmark": [...]}` of the flat
per-benchmark stats file. -/
structure ModeStatsDict where
  warmup : List ℚ
  benchmark : List ℚ
deriving DecidableEq

/-- JSON document `{"nuitka": {...}, "cpython": {...}}`. -/
structure StatsFileDict where
  nuitka : ModeStatsDict
  cpython : ModeStatsDict
deriving DecidableEq

/-- `Stats.from_dict` (lines 227-233). -/
def Stats.from_dict (d : ModeStatsDict) (name : String) : Stats :=
  ⟨name, d.warmup, d.benchmark⟩

/-- `Benchmark.parse_stats` (lines 246-248). -/
def Benchmark.parse_stats (b : Benchmark) (stats : StatsFileDict) : Benchmark :=
  { b with
    nuitka_stats := some (Stats.from_dict stats.nuitka "nuitka")
    cpython_stats := some (Stats.from_dict stats.cpython "cpython") }

/-- `Benchmark.from_path` (lines 263-282).  `file_path.stat()` on a missing
path raises `FileNotFoundError`; a zero-byte file fails the explicit
`st_size > 0` check, also raised as `FileNotFoundError`. -/
def Benchmark.from_path (file : DiskFile StatsFileDict) (stem benchmark_name : String) :
    Except PyErr Benchmark :=
  match file with
  | .absent => .error .fileNotFound
  | .empty => .error .fileNotFound
  | .withContent file_json =>
    match parse_file_name stem with
    | none => .error .valueError
    | some (_, version, pyver) =>
        .ok ((Benchmark.mk benchmark_name (some version) none none (some pyver)).parse_stats
          file_json)

/-- One loop iteration's filesystem view in `get_visualizer_setup`
(lines 454-462): whether `results/` exists, and the state of the
per-platform results file inside it. -/
structure BenchDirEntry where
  results_dir_exists : Bool
  file : DiskFile (List (String × VersionDict))

/-- The loop body of `get_visualizer_setup`: a missing results directory is
skipped before `file.stat()` is evaluated (Python short-circuit `or`), a
zero-byte file is skipped, and any other file is merged via
`from_json_file`.  `file.stat()` on a missing file raises. -/
def get_visualizer_setup_loop (benchmarks : Benchmarks) :
    List BenchDirEntry → Except PyErr Benchmarks
  | [] => .ok benchmarks
  | e :: rest =>
    if ¬ e.results_dir_exists then get_visualizer_setup_loop benchmarks rest
    else
      match e.file with
      | .absent => .error .fileNotFound
      | .empty => get_visualizer_setup_loop benchmarks rest
      | .withContent c => get_visualizer_setup_loop (benchmarks.from_json c) rest

/-- `get_visualizer_setup` (lines 454-462): folds every benchmark directory
into one store named `"Visualizer"`. -/
def get_visualizer_setup (entries : List BenchDirEntry) : Except PyErr Benchmarks :=
  get_visualizer_setup_loop (Benchmarks.mk "Visualizer" []) entries

end benchengine

namespace spec

/-- Arithmetic mean of the full series, as in the spec's `mean(S)`. -/
def meanFull (s : List ℚ) : ℚ := s.sum / s.length

/-- Modelled from the spec's words for claim C1: `M(S)` is the arithmetic
mean of `S` with `S[0]` excluded if and only if `min(S) == S[0]`, and the
mean of all of `S` otherwise. -/
def specM (s : List ℚ) : ℚ :=
  if benchengine.pymin s = some s.headI then meanFull (s.drop 1) else meanFull s

/-- Maximum of a list, used only to state the amended form of claim C3. -/
def listMax : List ℚ → Option ℚ
  | [] => none
  | x :: xs => some (xs.foldl max x)

end spec

namespace engine

/-- Python floats arising in `engine/tvenv.py`'s `Benchmark.report`:
finite values or the `float("inf")` sentinel. -/
inductive PyFloat
  | fin (q : ℚ)
  | inf
deriving DecidableEq

/-- Lines 134-136: `python_mean / nuitka_mean if nuitka_mean > 0 else
float("inf")` (the `"speedup_ratio"` entry of the summary). -/
def speedup_factor (python_mean nuitka_mean : ℚ) : PyFloat :=
  if 0 < nuitka_mean then .fin (python_mean / nuitka_mean) else .inf

/-- Lines 137-141: `(1 - nuitka_mean / python_mean) * 100 if python_mean > 0
else float("inf")`. -/
def percent_change (python_mean nuitka_mean : ℚ) : PyFloat :=
  if 0 < python_mean then .fin ((1 - nuitka_mean / python_mean) * 100) else .inf

/-- Python float comparison `x > 1`, where `inf > 1` is true. -/
def PyFloat.gtOne : PyFloat → Bool
  | .fin q => decide (1 < q)
  | .inf => true

/-- The `"comparison"` sub-dictionary of the summary returned by
`Benchmark.report` (lines 159-163). -/
structure Comparison where
  speedup : PyFloat
  percent : PyFloat
  is_nuitka_faster : Bool
deriving DecidableEq

/-- Builds the `"comparison"` section from the two parsed means. -/
def reportComparison (python_mean nuitka_mean : ℚ) : Comparison :=
  ⟨speedup_factor python_mean nuitka_mean,
   percent_change python_mean nuitka_mean,
   (speedup_factor python_mean nuitka_mean).gtOne⟩

/-- `Benchmark.restore` (engine/tvenv.py lines 28-31): writes the saved
text back only when `self.original_contents` is truthy — skipped both for
`None` and for the empty string. -/
def restore (original_contents : Option String) (file : String) : String :=
  match original_contents with
  | some s => if s = "" then file else s
  | none => file

/-- `Benchmark.compile` (engine/tvenv.py lines 33-77) viewed as a state
transformer on the text of `run_benchmark.py`.  `prepare` abstracts
`prepare_benchmark_file` (engine/benchmark_prepare.py is not under src/;
the rework twin is an AST rewriter), `compile_ok` abstracts the exit
status of the nuitka build.  `prepare()` saves the original text, the
build runs inside `try:`, and `restore()` sits in the `finally:` block, so
it runs whether or not `RuntimeError` is raised.  Returns the success flag
and the final file text. -/
def compile (prepare : String → String) (compile_ok : Bool) (file : String) :
    Bool × String :=
  let original_contents := some file
  let prepared := prepare file
  (compile_ok, restore original_contents prepared)

end engine

namespace rework

/-- `NECESSARY_ENV_VARS["nt"]` (rework/utils.py lines 66-101). -/
def NECESSARY_ENV_VARS_NT : List String :=
  ["ALLUSERSPROFILE", "APPDATA", "COMPUTERNAME", "ComSpec", "CommonProgramFiles",
   "CommonProgramFiles(x86)", "CommonProgramW6432", "HOMEDRIVE", "HOMEPATH",
   "LOCALAPPDATA", "NUMBER_OF_PROCESSORS", "OS", "PATHEXT",
   "PROCESSOR_ARCHITECTURE", "PROCESSOR_IDENTIFIER", "PROCESSOR_LEVEL",
   "PROCESSOR_REVISION", "Path", "ProgramData", "ProgramFiles",
   "ProgramFiles(x86)", "ProgramW6432", "SystemDrive", "SystemRoot", "TEMP",
   "TMP", "USERDNSDOMAIN", "USERDOMAIN", "USERDOMAIN_ROAMINGPROFILE",
   "USERNAME", "USERPROFILE", "windir"]

/-- `NECESSARY_ENV_VARS_DEFAULT` (lines 102-105). -/
def NECESSARY_ENV_VARS_DEFAULT : List String := ["HOME", "PATH"]

/-- `NECESSARY_ENV_VARS[os.name]` with the `KeyError` fallback to the
default list: the dict has only the `"nt"` key. -/
def necessary_env_vars (os_name : String) : List String :=
  if os_name = "nt" then NECESSARY_ENV_VARS_NT else NECESSARY_ENV_VARS_DEFAULT

/-- One step of the copying loop in `_get_envvars` (lines 115-117): copy
the variable when the host environment defines it.  The allow-lists are
duplicate-free, so appending matches dict insertion. -/
def envStep (environ : String → Option String) (env : List (String × String))
    (name : String) : List (String × String) :=
  match environ name with
  | some v => env ++ [(name, v)]
  | none => env

/-- `_get_envvars` (rework/utils.py lines 108-118): the environment mapping
built from the allow-list and the host environment `environ`. -/
def get_envvars (os_name : String) (environ : String → Option String) :
    List (String × String) :=
  (necessary_env_vars os_name).foldl (envStep environ) []

/-- The `env=` mapping `run_command_in_subprocess` (lines 121-131) hands to
`subprocess.Popen`: exactly `_get_envvars()`. -/
def run_command_in_subprocess_env (os_name : String)
    (environ : String → Option String) : List (String × String) :=
  get_envvars os_name environ

/-- `compile_benchmark` (rework/tvenv.py lines 32-69) as a state
transformer on the text of `run_benchmark.py`: the original text is read,
`prepare_benchmark_file` rewrites the file, the build runs, and the
restoring write (lines 68-69) sits after the `with` block with no
`finally`, so a non-zero build return code raises `RuntimeError` before
the original text is written back. -/
def compile_benchmark (prepare : String → String) (compile_ok : Bool) (file : String) :
    Bool × String :=
  let original_contents := file
  let prepared := prepare file
  if compile_ok then (true, original_contents) else (false, prepared)

end rework

namespace examples

open benchengine

/-- Compiled-mode stats of the spec's §8 end-to-end scenario. -/
def statsNuitkaSpec : Stats := ⟨"nuitka", [12, 9, 9, 9], [8, 8, 8, 8]⟩

/-- Interpreted-mode stats of the spec's §8 end-to-end scenario. -/
def statsCPythonSpec : Stats := ⟨"cpython", [20, 15, 15, 15], [14, 14, 14, 14]⟩

/-- A benchmark holding the §8 end-to-end data. -/
def benchSpec : Benchmark :=
  { name := "bm_spec", nuitka_stats := some statsNuitkaSpec,
    cpython_stats := some statsCPythonSpec }

/-- Stats whose representative duration is 8. -/
def statsEight : Stats := ⟨"s8", [8, 8], [8, 8]⟩

/-- Stats whose representative duration is 10. -/
def statsTen : Stats := ⟨"s10", [10, 10], [10, 10]⟩

/-- Stats whose representative duration is 0. -/
def statsZero : Stats := ⟨"s0", [0, 0], [0, 0]⟩

/-- Benchmark with compiled C = 8 against interpreted I = 10. -/
def benchFaster : Benchmark :=
  { name := "pair", nuitka_stats := some statsEight, cpython_stats := some statsTen }

/-- Benchmark with compiled C = 10 against interpreted I = 8. -/
def benchSlower : Benchmark :=
  { name := "pair", nuitka_stats := some statsTen, cpython_stats := some statsEight }

/-- Benchmark whose interpreted representative duration is zero. -/
def benchZeroDivide : Benchmark :=
  { name := "pair", nuitka_stats := some statsEight, cpython_stats := some statsZero }

/-- A record for workload `bm_a` under interpreter version 3.11. -/
def holderA : BenchmarkHolder :=
  ⟨"bm_a", "3.11", ⟨⟨[1], [2]⟩, ⟨[3], [4]⟩⟩, ⟨⟨[5], [6]⟩, ⟨[7], [8]⟩⟩⟩

/-- A record for a different workload, `bm_b`, under the same interpreter
version 3.11. -/
def holderB : BenchmarkHolder :=
  ⟨"bm_b", "3.11", ⟨⟨[11], [12]⟩, ⟨[13], [14]⟩⟩, ⟨⟨[15], [16]⟩, ⟨[17], [18]⟩⟩⟩

/-- A record for workload `bm_b` under the distinct interpreter
version 3.12. -/
def holderB312 : BenchmarkHolder :=
  ⟨"bm_b", "3.12", ⟨⟨[11], [12]⟩, ⟨[13], [14]⟩⟩, ⟨⟨[15], [16]⟩, ⟨[17], [18]⟩⟩⟩

/-- A record whose CPython and Nuitka mode results differ. -/
def holderRT : BenchmarkHolder :=
  ⟨"bm_x", "3.11", ⟨⟨[1], [2]⟩, ⟨[3], [4]⟩⟩, ⟨⟨[5], [6]⟩, ⟨[7], [8]⟩⟩⟩

/-- A store holding only `holderRT`. -/
def storeRT : Benchmarks := (Benchmarks.mk "bm_x" []).add_benchmark holderRT

/-- `storeRT` saved with `to_json_file` and reloaded with
`from_json_file` into a fresh store of the same name. -/
def reloadedRT : Benchmarks := (Benchmarks.mk "bm_x" []).from_json storeRT.to_json

/-- A host environment defining HOME, PATH and a secret variable. -/
def hostEnvWithSecret : String → Option String := fun n =>
  if n = "HOME" then some "/root"
  else if n = "PATH" then some "/usr/bin"
  else if n = "SECRET_TOKEN" then some "hunter2"
  else none

/-- The same host environment without the secret variable. -/
def hostEnvNoSecret : String → Option String := fun n =>
  if n = "HOME" then some "/root"
  else if n = "PATH" then some "/usr/bin"
  else none

end examples

namespace benchengine

theorem foldl_min_le_init (xs : List ℚ) (a : ℚ) : xs.foldl min a ≤ a := by
  induction xs generalizing a with
  | nil => simp
  | cons x xs ih => exact le_trans (ih (min a x)) (min_le_left a x)

theorem foldl_min_le_mem (xs : List ℚ) (a : ℚ) {y : ℚ} (hy : y ∈ xs) :
    xs.foldl min a ≤ y := by
  induction xs generalizing a with
  | nil => cases hy
  | cons x xs ih =>
    rcases List.mem_cons.mp hy with h | h
    · subst h
      exact le_trans (foldl_min_le_init xs (min a y)) (min_le_right a y)
    · exact ih (min a x) h

theorem pymin_le {s : List ℚ} {m : ℚ} (h : pymin s = some m) :
    ∀ y ∈ s, m ≤ y := by
  cases s with
  | nil => simp [pymin] at h
  | cons x xs =>
    simp only [pymin, Option.some.injEq] at h
    subst h
    intro y hy
    rcases List.mem_cons.mp hy with h | h
    · subst h
      exact foldl_min_le_init xs y
    · exact foldl_min_le_mem xs x h

theorem foldl_max_le_init (xs : List ℚ) (a : ℚ) : a ≤ xs.foldl max a := by
  induction xs generalizing a with
  | nil => simp
  | cons x xs ih => exact le_trans (le_max_left a x) (ih (max a x))

theorem foldl_max_le_mem (xs : List ℚ) (a : ℚ) {y : ℚ} (hy : y ∈ xs) :
    y ≤ xs.foldl max a := by
  induction xs generalizing a with
  | nil => cases hy
  | cons x xs ih =>
    rcases List.mem_cons.mp hy with h | h
    · subst h
      exact le_trans (le_max_right a y) (foldl_max_le_init xs (max a y))
    · exact ih (max a x) h

theorem listMax_ge {s : List ℚ} {M : ℚ} (h : spec.listMax s = some M) :
    ∀ y ∈ s, y ≤ M := by
  cases s with
  | nil => simp [spec.listMax] at h
  | cons x xs =>
    simp only [spec.listMax, Option.some.injEq] at h
    subst h
    intro y hy
    rcases List.mem_cons.mp hy with h | h
    · subst h
      exact foldl_max_le_init xs y
    · exact foldl_max_le_mem xs x h

theorem pymean_eq_meanFull {s : List ℚ} (h : s ≠ []) :
    pymean s = some (spec.meanFull s) := by
  simp [pymean, spec.meanFull, h]

theorem le_pymean {t : List ℚ} {m μ : ℚ} (ht : pymean t = some μ)
    (h : ∀ y ∈ t, m ≤ y) : m ≤ μ := by
  unfold pymean at ht
  by_cases he : t.isEmpty
  · simp [he] at ht
  · simp only [he, if_neg, Bool.false_eq_true, not_false_eq_true, if_false,
      Option.some.injEq] at ht
    have hne : t ≠ [] := by simpa [List.isEmpty_iff] using he
    have hlen : 0 < (t.length : ℚ) := by
      exact_mod_cast List.length_pos.mpr hne
    subst ht
    rw [le_div_iff₀ hlen]
    have hs := List.card_nsmul_le_sum t m h
    calc m * t.length = t.length • m := by rw [nsmul_eq_mul, mul_comm]
    _ ≤ t.sum := hs

theorem pymean_le {t : List ℚ} {M μ : ℚ} (ht : pymean t = some μ)
    (h : ∀ y ∈ t, y ≤ M) : μ ≤ M := by
  unfold pymean at ht
  by_cases he : t.isEmpty
  · simp [he] at ht
  · simp only [he, if_neg, Bool.false_eq_true, not_false_eq_true, if_false,
      Option.some.injEq] at ht
    have hne : t ≠ [] := by simpa [List.isEmpty_iff] using he
    have hlen : 0 < (t.length : ℚ) := by
      exact_mod_cast List.length_pos.mpr hne
    subst ht
    rw [div_le_iff₀ hlen]
    have hs := List.sum_le_card_nsmul t M h
    calc t.sum ≤ t.length • M := hs
    _ = M * t.length := by rw [nsmul_eq_mul, mul_comm]

theorem seriesMean_eq_specM {s : List ℚ} (h1 : s ≠ [])
    (h2 : pymin s = some s.headI → 1 < s.length) :
    seriesMean s = some (spec.specM s) := by
  cases s with
  | nil => exact absurd rfl h1
  | cons x xs =>
    by_cases hskew : xs.foldl min x = x
    · have hmin : pymin (x :: xs) = some (x :: xs).headI := by
        simp [pymin, List.headI, hskew]
      have hlen := h2 hmin
      have hxs : xs ≠ [] := by
        intro hnil
        subst hnil
        simp at hlen
      simp only [seriesMean, pymin, Option.bind_eq_bind, Option.some_bind,
        List.headI, hskew, if_pos, List.drop_succ_cons, List.drop_zero]
      rw [pymean_eq_meanFull hxs]
      simp [spec.specM, hmin, List.headI]
    · have hmin : ¬ pymin (x :: xs) = some (x :: xs).headI := by
        simp [pymin, List.headI, hskew]
      simp only [seriesMean, pymin, Option.bind_eq_bind, Option.some_bind,
        List.headI, hskew, if_neg, if_false, List.drop_zero]
      rw [pymean_eq_meanFull h1]
      have hmin2 : ¬ pymin (x :: xs) = some x := by simpa [List.headI] using hmin
      simp [spec.specM, List.headI, hmin2]

theorem seriesMean_isSome {s : List ℚ} (h : 1 < s.length) :
    ∃ q, seriesMean s = some q := by
  cases s with
  | nil => simp at h
  | cons x xs =>
    have hxs : xs ≠ [] := by
      intro hnil
      subst hnil
      simp at h
    simp only [seriesMean, pymin, Option.bind_eq_bind, Option.some_bind]
    by_cases hskew : xs.foldl min x = (x :: xs).headI
    · simp only [hskew, if_pos, List.drop_succ_cons, List.drop_zero]
      exact ⟨_, pymean_eq_meanFull hxs⟩
    · simp only [hskew, if_neg, if_false, List.drop_zero]
      exact ⟨_, pymean_eq_meanFull (List.cons_ne_nil x xs)⟩

end benchengine

namespace benchengine

theorem lookup_dictInsert_self {α : Type} (l : List (String × α)) (k : String) (v : α) :
    (dictInsert l k v).lookup k = some v := by
  induction l with
  | nil => simp [dictInsert, List.lookup]
  | cons p ps ih =>
    by_cases hp : p.1 = k
    · simp [dictInsert, hp, List.lookup]
    · simp only [dictInsert, hp, if_false, List.lookup]
      have : (k == p.1) = false := by
        simp [beq_iff_eq]
        exact fun h => hp h.symm
      simp [this, ih]

theorem lookup_dictInsert_ne {α : Type} (l : List (String × α)) (k k' : String) (v : α)
    (h : k' ≠ k) : (dictInsert l k v).lookup k' = l.lookup k' := by
  induction l with
  | nil =>
    have hk : (k' == k) = false := by simp [beq_iff_eq, h]
    simp [dictInsert, List.lookup, hk]
  | cons p ps ih =>
    by_cases hp : p.1 = k
    · subst hp
      have hk : (k' == p.1) = false := by simp [beq_iff_eq, h]
      simp [dictInsert, List.lookup, hk]
    · simp only [dictInsert, hp, if_false, List.lookup]
      by_cases hk : k' = p.1
      · simp [hk]
      · have hk2 : (k' == p.1) = false := by simp [beq_iff_eq, hk]
        simp [hk2, ih]

end benchengine

namespace rework

theorem mem_foldl_envStep (environ : String → Option String) (names : List String)
    (acc : List (String × String)) (n : String) (v : String) :
    (n, v) ∈ names.foldl (envStep environ) acc ↔
      (n, v) ∈ acc ∨ (n ∈ names ∧ environ n = some v) := by
  induction names generalizing acc with
  | nil => simp
  | cons m ms ih =>
    rw [List.foldl_cons, ih]
    cases hm : environ m with
    | none =>
      simp only [envStep, hm, List.mem_cons]
      constructor
      · rintro (h1 | h1)
        · exact Or.inl h1
        · exact Or.inr ⟨Or.inr h1.1, h1.2⟩
      · rintro (h1 | ⟨hn | hn, he⟩)
        · exact Or.inl h1
        · subst hn
          rw [hm] at he
          cases he
        · exact Or.inr ⟨hn, he⟩
    | some w =>
      simp only [envStep, hm, List.mem_append, List.mem_cons,
        List.mem_singleton, Prod.mk.injEq, List.not_mem_nil, or_false]
      constructor
      · rintro ((h1 | ⟨hn, hv⟩) | h1)
        · exact Or.inl h1
        · subst hn
          subst hv
          exact Or.inr ⟨Or.inl rfl, hm⟩
        · exact Or.inr ⟨Or.inr h1.1, h1.2⟩
      · rintro (h1 | ⟨hn | hn, he⟩)
        · exact Or.inl (Or.inl h1)
        · subst hn
          rw [hm] at he
          cases he
          exact Or.inl (Or.inr ⟨rfl, rfl⟩)
        · exact Or.inr ⟨hn, he⟩

theorem foldl_envStep_congr (e1 e2 : String → Option String) (names : List String)
    (acc : List (String × String)) (h : ∀ n ∈ names, e1 n = e2 n) :
    names.foldl (envStep e1) acc = names.foldl (envStep e2) acc := by
  induction names generalizing acc with
  | nil => rfl
  | cons m ms ih =>
    rw [List.foldl_cons, List.foldl_cons]
    have hm : envStep e1 acc m = envStep e2 acc m := by
      unfold envStep
      rw [h m (List.mem_cons_self m ms)]
    rw [hm]
    exact ih _ (fun n hn => h n (List.mem_cons_of_mem m hn))

end rework

namespace benchengine

theorem pyLower_nuitka : pyLower "nuitka" = "nuitka" := by decide

theorem pyLower_cpython : pyLower "cpython" = "cpython" := by decide

end benchengine

open benchengine

/-- Claim C1: for every execution mode whose warm-up and benchmark sample
series are both non-empty (and have more than one element whenever their
first element is the series minimum), the representative duration computed
by `calculate_stats` equals `min (M warmup) (M benchmark)`, where `M S` is
the arithmetic mean of `S` with `S[0]` excluded if and only if
`min S = S[0]`, and the mean of all of `S` otherwise. -/
theorem calculate_stats_is_min_of_skew_trimmed_means
    (b : Benchmark) (ns cs st : Stats) (which : String)
    (hn : b.nuitka_stats = some ns) (hc : b.cpython_stats = some cs)
    (hw : pyLower which = "nuitka" ∨ pyLower which = "cpython")
    (hst : st = if pyLower which = "nuitka" then ns else cs)
    (hwne : st.warmup ≠ []) (hbne : st.benchmark ≠ [])
    (hwskew : pymin st.warmup = some st.warmup.headI → 1 < st.warmup.length)
    (hbskew : pymin st.benchmark = some st.benchmark.headI → 1 < st.benchmark.length) :
    b.calculate_stats which =
      some (min (spec.specM st.warmup) (spec.specM st.benchmark)) := by
  simp only [Benchmark.calculate_stats, hn, hc, not_not_intro hw]
  rw [← hst]
  simp only [if_false]
  rw [seriesMean_eq_specM hwne hwskew, seriesMean_eq_specM hbne hbskew]
  rfl

/-- Witness for C1 at the spec's §8 end-to-end scenario. -/
theorem calculate_stats_is_min_of_skew_trimmed_means_witness :
    examples.benchSpec.calculate_stats "nuitka" =
      some (min (spec.specM examples.statsNuitkaSpec.warmup)
        (spec.specM examples.statsNuitkaSpec.benchmark)) :=
  calculate_stats_is_min_of_skew_trimmed_means examples.benchSpec
    examples.statsNuitkaSpec examples.statsCPythonSpec examples.statsNuitkaSpec
    "nuitka" rfl rfl (Or.inl pyLower_nuitka) (by rw [if_pos pyLower_nuitka])
    (by decide) (by decide) (fun _ => by decide) (fun _ => by decide)

/-- Claim C3 is false as stated: for `S = [5, 10, 10, 10]` (taken from the
spec's own §8 example) the skew-trimmed representative is 10 while the full
untrimmed mean is 35/4, so the representative lies strictly above
`mean(S)` and outside `[min S, mean S]`. -/
theorem seriesMean_above_full_mean_counterexample :
    seriesMean [5, 10, 10, 10] = some 10 ∧
    ¬ (10 : ℚ) ≤ spec.meanFull [5, 10, 10, 10] := by
  constructor
  · simp [seriesMean, pymin, pymean]
    norm_num
  · simp [spec.meanFull]
    norm_num

/-- Claim C3 amended: the representative duration computed from a series
lies within `[min S, max S]` (the upper end `mean S` of the claimed
interval does not hold, as the counterexample shows). -/
theorem seriesMean_between_min_and_max (s : List ℚ) (m M x : ℚ)
    (hm : pymin s = some m) (hM : spec.listMax s = some M)
    (hx : seriesMean s = some x) : m ≤ x ∧ x ≤ M := by
  cases s with
  | nil => simp [pymin] at hm
  | cons a as =>
    have hx2 : pymean ((a :: as).drop
        (if as.foldl min a = (a :: as).headI then 1 else 0)) = some x := by
      simpa [seriesMean, pymin] using hx
    have hsub : ∀ y ∈ (a :: as).drop
        (if as.foldl min a = (a :: as).headI then 1 else 0), y ∈ a :: as :=
      fun y hy => List.drop_subset _ _ hy
    exact ⟨le_pymean hx2 (fun y hy => pymin_le hm y (hsub y hy)),
           pymean_le hx2 (fun y hy => listMax_ge hM y (hsub y hy))⟩

/-- Witness for the amended C3 at `S = [5, 10, 10, 10]`. -/
theorem seriesMean_between_min_and_max_witness : (5 : ℚ) ≤ 10 ∧ (10 : ℚ) ≤ 10 :=
  seriesMean_between_min_and_max [5, 10, 10, 10] 5 10 10
    (by simp [pymin]; norm_num [min_def])
    (by simp [spec.listMax]; norm_num [max_def])
    (by simp [seriesMean, pymin, pymean]; norm_num)

/-- Claim C8: the representative-duration computation fails on a
single-element series (its only element is trivially the minimum, and
excluding it empties the series), and when every series involved has more
than one element `calculate_stats` always returns a value. -/
theorem single_sample_fails_longer_series_succeed :
    (∀ x : ℚ, seriesMean [x] = none) ∧
    (∀ (b : Benchmark) (ns cs : Stats) (which : String),
      b.nuitka_stats = some ns → b.cpython_stats = some cs →
      1 < ns.warmup.length → 1 < ns.benchmark.length →
      1 < cs.warmup.length → 1 < cs.benchmark.length →
      pyLower which = "nuitka" ∨ pyLower which = "cpython" →
      (b.calculate_stats which).isSome = true) := by
  constructor
  · intro x
    simp [seriesMean, pymin, pymean, List.headI]
  · intro b ns cs which hn hc hnw hnb hcw hcb hw
    simp only [Benchmark.calculate_stats, hn, hc, not_not_intro hw, if_false]
    by_cases hwn : pyLower which = "nuitka"
    · simp only [hwn, if_pos]
      obtain ⟨w, hw1⟩ := seriesMean_isSome hnw
      obtain ⟨bm, hb1⟩ := seriesMean_isSome hnb
      simp [hw1, hb1]
    · simp only [hwn, if_false]
      obtain ⟨w, hw1⟩ := seriesMean_isSome hcw
      obtain ⟨bm, hb1⟩ := seriesMean_isSome hcb
      simp [hw1, hb1]

/-- Witness for C8 at the spec's §8 benchmark, whose four series all have
four samples. -/
theorem single_sample_fails_longer_series_succeed_witness :
    (examples.benchSpec.calculate_stats "nuitka").isSome = true :=
  single_sample_fails_longer_series_succeed.2 examples.benchSpec
    examples.statsNuitkaSpec examples.statsCPythonSpec "nuitka" rfl rfl
    (by decide) (by decide) (by decide) (by decide) (Or.inl pyLower_nuitka)

namespace benchengine

theorem seriesMean_const_eight : seriesMean [8, 8] = some 8 := by
  simp [seriesMean, pymin, pymean]

theorem seriesMean_const_ten : seriesMean [10, 10] = some 10 := by
  simp [seriesMean, pymin, pymean]

theorem seriesMean_const_zero : seriesMean [0, 0] = some 0 := by
  simp [seriesMean, pymin, pymean]

theorem string_cpython_ne_nuitka : ¬ ("cpython" : String) = "nuitka" := by decide

end benchengine

theorem calc_benchFaster_nuitka :
    examples.benchFaster.calculate_stats "nuitka" = some 8 := by
  simp only [Benchmark.calculate_stats, examples.benchFaster, examples.statsEight,
    examples.statsTen, pyLower_nuitka]
  norm_num [seriesMean_const_eight]

theorem calc_benchFaster_cpython :
    examples.benchFaster.calculate_stats "cpython" = some 10 := by
  simp only [Benchmark.calculate_stats, examples.benchFaster, examples.statsEight,
    examples.statsTen, pyLower_cpython, string_cpython_ne_nuitka]
  simp [seriesMean_const_ten]

theorem calc_benchSlower_nuitka :
    examples.benchSlower.calculate_stats "nuitka" = some 10 := by
  simp only [Benchmark.calculate_stats, examples.benchSlower, examples.statsEight,
    examples.statsTen, pyLower_nuitka]
  norm_num [seriesMean_const_ten]

theorem calc_benchSlower_cpython :
    examples.benchSlower.calculate_stats "cpython" = some 8 := by
  simp only [Benchmark.calculate_stats, examples.benchSlower, examples.statsEight,
    examples.statsTen, pyLower_cpython, string_cpython_ne_nuitka]
  simp [seriesMean_const_eight]

theorem calc_benchZeroDivide_nuitka :
    examples.benchZeroDivide.calculate_stats "nuitka" = some 8 := by
  simp only [Benchmark.calculate_stats, examples.benchZeroDivide, examples.statsEight,
    examples.statsZero, pyLower_nuitka]
  norm_num [seriesMean_const_eight]

theorem calc_benchZeroDivide_cpython :
    examples.benchZeroDivide.calculate_stats "cpython" = some 0 := by
  simp only [Benchmark.calculate_stats, examples.benchZeroDivide, examples.statsEight,
    examples.statsZero, pyLower_cpython, string_cpython_ne_nuitka]
  simp [seriesMean_const_zero]

theorem format_stats_spec (b : Benchmark) (C I : ℚ)
    (hC : b.calculate_stats "nuitka" = some C)
    (hI : b.calculate_stats "cpython" = some I) (hI0 : I ≠ 0) :
    (C < I → b.format_stats = some (.plus ((I - C) / I * 100))) ∧
    (I < C → b.format_stats = some (.minus ((C - I) / I * 100))) ∧
    (C = I → b.format_stats = some (.zero 0)) := by
  refine ⟨?_, ?_, ?_⟩ <;> intro h
  · simp [Benchmark.format_stats, hC, hI, hI0, h]
  · simp [Benchmark.format_stats, hC, hI, hI0, h, lt_asymm h]
  · subst h
    simp [Benchmark.format_stats, hC, hI, hI0, lt_irrefl]

/-- Claim C2: for representative durations C (Nuitka) and I (CPython),
`format_stats` reports `+((I-C)/I·100)%` when `C < I`, `-((C-I)/I·100)%`
when `C > I`, and exactly 0% when `C = I`; in particular (C=8, I=10)
yields +20% and (C=10, I=8) yields -25%. -/
theorem format_stats_relative_percentages :
    (∀ (b : Benchmark) (C I : ℚ),
      b.calculate_stats "nuitka" = some C →
      b.calculate_stats "cpython" = some I → I ≠ 0 →
      (C < I → b.format_stats = some (.plus ((I - C) / I * 100))) ∧
      (I < C → b.format_stats = some (.minus ((C - I) / I * 100))) ∧
      (C = I → b.format_stats = some (.zero 0))) ∧
    examples.benchFaster.format_stats = some (.plus 20) ∧
    examples.benchSlower.format_stats = some (.minus 25) := by
  refine ⟨format_stats_spec, ?_, ?_⟩
  · have h := (format_stats_spec examples.benchFaster 8 10 calc_benchFaster_nuitka
      calc_benchFaster_cpython (by norm_num)).1 (by norm_num)
    have e : ((10 : ℚ) - 8) / 10 * 100 = 20 := by norm_num
    rw [e] at h
    exact h
  · have h := (format_stats_spec examples.benchSlower 10 8 calc_benchSlower_nuitka
      calc_benchSlower_cpython (by norm_num)).2.1 (by norm_num)
    have e : ((10 : ℚ) - 8) / 8 * 100 = 25 := by norm_num
    rw [e] at h
    exact h

/-- Witness for C2: the compiled-faster branch at C = 8, I = 10. -/
theorem format_stats_relative_percentages_witness :
    (8 : ℚ) < 10 ∧
    examples.benchFaster.format_stats = some (.plus ((10 - 8) / 10 * 100)) :=
  ⟨by norm_num,
   (format_stats_relative_percentages.1 examples.benchFaster 8 10
      calc_benchFaster_nuitka calc_benchFaster_cpython (by norm_num)).1 (by norm_num)⟩

/-- Claim C4 is false as stated: while `format_stats` does raise
`ZeroDivisionError` when the interpreted figure is zero, `Benchmark.report`
in engine/tvenv.py returns `float("inf")` in its comparison data whenever
the Nuitka mean is not positive (and likewise for the percent change when
the CPython mean is not positive). -/
theorem report_comparison_infinite_counterexample :
    (engine.reportComparison 1 0).speedup = engine.PyFloat.inf := by
  simp [engine.reportComparison, engine.speedup_factor]

/-- Claim C4 amended: a zero interpreted representative makes
`format_stats` raise (an error condition, no value is produced), but the
comparison data returned by `Benchmark.report` contains `float("inf")`
exactly when the Nuitka mean (for the speedup entry) or the CPython mean
(for the percent-change entry) is not positive. -/
theorem zero_division_raises_but_report_returns_inf :
    (∀ (b : Benchmark) (C : ℚ),
      b.calculate_stats "nuitka" = some C →
      b.calculate_stats "cpython" = some 0 →
      b.format_stats = none) ∧
    (∀ p n : ℚ, engine.speedup_factor p n = engine.PyFloat.inf ↔ ¬ 0 < n) ∧
    (∀ p n : ℚ, engine.percent_change p n = engine.PyFloat.inf ↔ ¬ 0 < p) := by
  refine ⟨?_, ?_, ?_⟩
  · intro b C hC hI
    simp [Benchmark.format_stats, hC, hI]
  · intro p n
    unfold engine.speedup_factor
    split <;> simp_all
  · intro p n
    unfold engine.percent_change
    split <;> simp_all

/-- Witness for the amended C4: a benchmark whose interpreted
representative is zero makes `format_stats` fail. -/
theorem zero_division_raises_witness :
    examples.benchZeroDivide.format_stats = none :=
  zero_division_raises_but_report_returns_inf.1 examples.benchZeroDivide 8
    calc_benchZeroDivide_nuitka calc_benchZeroDivide_cpython

/-- Claim C5 is false as stated: the store is keyed by interpreter version
alone, so adding records for the two different workloads `bm_a` and `bm_b`
that share interpreter version 3.11 leaves only the second record — the
first is overwritten rather than kept retrievable. -/
theorem add_benchmark_overwrites_across_workloads :
    (((Benchmarks.mk "suite" []).add_benchmark examples.holderA).add_benchmark
        examples.holderB).benchmarks = [("3.11", examples.holderB)] ∧
    examples.holderA ≠ examples.holderB := by
  constructor
  · rfl
  · decide

/-- Claim C5 amended: record identity in a store is the interpreter
version alone: records stored under distinct interpreter versions never
merge or overwrite each other, while a record stored under an
already-present interpreter version replaces the existing one even when
the workload names differ. -/
theorem add_benchmark_keyed_by_interpreter_version
    (bs : Benchmarks) (h1 h2 : BenchmarkHolder) :
    (h1.python_version ≠ h2.python_version →
      ((bs.add_benchmark h1).add_benchmark h2).benchmarks.lookup h1.python_version =
          some h1 ∧
      ((bs.add_benchmark h1).add_benchmark h2).benchmarks.lookup h2.python_version =
          some h2) ∧
    (h1.python_version = h2.python_version →
      ((bs.add_benchmark h1).add_benchmark h2).benchmarks.lookup h2.python_version =
          some h2) := by
  constructor
  · intro hne
    constructor
    · rw [Benchmarks.add_benchmark, Benchmarks.add_benchmark]
      rw [lookup_dictInsert_ne _ _ _ _ hne]
      exact lookup_dictInsert_self _ _ _
    · exact lookup_dictInsert_self _ _ _
  · intro _
    exact lookup_dictInsert_self _ _ _

/-- Witness for the amended C5: `bm_a` under 3.11 and `bm_b` under 3.12
both stay retrievable. -/
theorem add_benchmark_keyed_by_interpreter_version_witness :
    examples.holderA.python_version ≠ examples.holderB312.python_version ∧
    (((Benchmarks.mk "suite" []).add_benchmark examples.holderA).add_benchmark
        examples.holderB312).benchmarks.lookup examples.holderA.python_version =
      some examples.holderA ∧
    (((Benchmarks.mk "suite" []).add_benchmark examples.holderA).add_benchmark
        examples.holderB312).benchmarks.lookup examples.holderB312.python_version =
      some examples.holderB312 :=
  ⟨by decide,
   (add_benchmark_keyed_by_interpreter_version (Benchmarks.mk "suite" [])
      examples.holderA examples.holderB312).1 (by decide)⟩

/-- Claim C6: the save/load round-trip is broken by a positional-argument
swap in `BenchmarkHolder.from_dict` — reloading `holderRT` yields a record
whose `CPython_benchmark` holds the original Nuitka series and vice versa,
which differs from the saved record whenever the two modes' data differ. -/
theorem save_load_swaps_modes :
    examples.reloadedRT.benchmarks.lookup "3.11" =
      some ⟨"bm_x", "3.11", examples.holderRT.Nuitka_benchmark,
        examples.holderRT.CPython_benchmark⟩ ∧
    examples.holderRT.CPython_benchmark ≠ examples.holderRT.Nuitka_benchmark := by
  constructor
  · rfl
  · decide

/-- Claim C7: a zero-byte results file in the tolerant visualizer loop
contributes no records and raises no error, while `Benchmark.from_path`
raises a not-found error on both a missing and a zero-byte file. -/
theorem zero_byte_tolerated_and_absent_required_raises :
    (∀ entries : List BenchDirEntry,
      (∀ e ∈ entries, e.results_dir_exists = false ∨ e.file = DiskFile.empty) →
      get_visualizer_setup entries = .ok (Benchmarks.mk "Visualizer" [])) ∧
    (∀ stem benchmark_name : String,
      Benchmark.from_path DiskFile.absent stem benchmark_name =
        .error PyErr.fileNotFound ∧
      Benchmark.from_path DiskFile.empty stem benchmark_name =
        .error PyErr.fileNotFound) := by
  constructor
  · intro entries
    show (∀ e ∈ entries, _) → get_visualizer_setup_loop _ entries = _
    induction entries with
    | nil =>
      intro _
      rfl
    | cons e rest ih =>
      intro h
      rcases h e (List.mem_cons_self e rest) with hd | hf
      · rw [get_visualizer_setup_loop]
        simp only [hd, Bool.false_eq_true, not_false_eq_true, if_pos]
        exact ih (fun x hx => h x (List.mem_cons_of_mem e hx))
      · rw [get_visualizer_setup_loop]
        by_cases hd : e.results_dir_exists
        · simp only [hd, not_true_eq_false, if_false, hf]
          exact ih (fun x hx => h x (List.mem_cons_of_mem e hx))
        · simp only [hd, Bool.false_eq_true, not_false_eq_true, if_pos]
          exact ih (fun x hx => h x (List.mem_cons_of_mem e hx))
  · intro stem benchmark_name
    exact ⟨rfl, rfl⟩

/-- Witness for C7: one benchmark directory with no results directory and
one with a zero-byte results file produce the empty visualizer store. -/
theorem zero_byte_tolerated_witness :
    get_visualizer_setup [⟨false, DiskFile.withContent []⟩, ⟨true, DiskFile.empty⟩] =
      .ok (Benchmarks.mk "Visualizer" []) :=
  zero_byte_tolerated_and_absent_required_raises.1
    [⟨false, DiskFile.withContent []⟩, ⟨true, DiskFile.empty⟩]
    (by
      intro e he
      rcases List.mem_cons.mp he with h | h
      · subst h
        exact Or.inl rfl
      · rcases List.mem_cons.mp h with h2 | h2
        · subst h2
          exact Or.inr rfl
        · cases h2)

/-- Claim C9: the environment that `run_command_in_subprocess` passes to
every child process contains exactly the variables that are both on the
platform allow-list (the fixed Windows list when `os.name == "nt"`,
otherwise only HOME and PATH) and present in the host environment, with
the host's values; and two host environments agreeing on the allow-list
produce identical child environments. -/
theorem child_env_restricted_to_allowlist :
    (∀ (os_name : String) (environ : String → Option String) (n v : String),
      (n, v) ∈ rework.run_command_in_subprocess_env os_name environ ↔
        n ∈ rework.necessary_env_vars os_name ∧ environ n = some v) ∧
    (∀ os_name : String, os_name ≠ "nt" →
      rework.necessary_env_vars os_name = ["HOME", "PATH"]) ∧
    (∀ (os_name : String) (e1 e2 : String → Option String),
      (∀ n ∈ rework.necessary_env_vars os_name, e1 n = e2 n) →
      rework.run_command_in_subprocess_env os_name e1 =
        rework.run_command_in_subprocess_env os_name e2) := by
  refine ⟨?_, ?_, ?_⟩
  · intro os_name environ n v
    rw [rework.run_command_in_subprocess_env, rework.get_envvars,
      rework.mem_foldl_envStep]
    simp
  · intro os_name h
    simp [rework.necessary_env_vars, h, rework.NECESSARY_ENV_VARS_DEFAULT]
  · intro os_name e1 e2 h
    exact rework.foldl_envStep_congr e1 e2 _ [] h

/-- Witness for C9: removing a variable outside the allow-list from the
host environment leaves the child environment unchanged. -/
theorem child_env_restricted_to_allowlist_witness :
    rework.run_command_in_subprocess_env "posix" examples.hostEnvWithSecret =
      rework.run_command_in_subprocess_env "posix" examples.hostEnvNoSecret :=
  child_env_restricted_to_allowlist.2.2 "posix" examples.hostEnvWithSecret
    examples.hostEnvNoSecret (by decide)

/-- Claim C10 is false as stated: a failing compile command in
`rework.compile_benchmark` raises before the restoring write, leaving the
AST-rewritten text in `run_benchmark.py`. -/
theorem compile_benchmark_failure_keeps_rewrite :
    rework.compile_benchmark (fun _ => "REWRITTEN") false "original" =
      (false, "REWRITTEN") ∧ ("REWRITTEN" : String) ≠ "original" := by
  constructor
  · rfl
  · decide

/-- Claim C10 amended: `engine`'s `Benchmark.compile` restores the
original text whether the compile command succeeds or raises (its restore
sits in a `finally`; the original must be non-empty, since `restore` skips
falsy saved contents); `rework`'s `compile_benchmark` restores the
original text only when the compile command succeeds, and leaves the
rewritten text in place when it fails. -/
theorem engine_compile_restores_rework_only_on_success :
    (∀ (prepare : String → String) (compile_ok : Bool) (file : String),
      file ≠ "" → (engine.compile prepare compile_ok file).2 = file) ∧
    (∀ (prepare : String → String) (file : String),
      rework.compile_benchmark prepare true file = (true, file)) ∧
    (∀ (prepare : String → String) (file : String),
      (rework.compile_benchmark prepare false file).2 = prepare file) := by
  refine ⟨?_, ?_, ?_⟩
  · intro prepare compile_ok file h
    simp [engine.compile, engine.restore, h]
  · intro prepare file
    rfl
  · intro prepare file
    rfl

/-- Witness for the amended C10: the engine compile path restores the
original text even when the build fails. -/
theorem engine_compile_restores_witness :
    (engine.compile (fun s => s ++ "-rewritten") false "original text").2 =
      "original text" :=
  engine_compile_restores_rework_only_on_success.1 (fun s => s ++ "-rewritten")
    false "original text" (by decide)
